import Mathlib

/-!
Verification of the rabbits bioinformatics pipeline sources against their
natural-language specification.

The development shallowly embeds the Python sources:

* `src/vcfparser.py` — `extract_variant_sites` and `generate_frequency_spectrum`
  (VCF records become lists of whitespace-split column strings; the in-place
  mutation of the `variants` dictionary becomes explicit state passing; the
  global `logging.debug` side channel becomes an explicit log list; Python
  exceptions become an `Except PyErr` error monad; Python floats become exact
  rationals, which is faithful for the decimal literals and the `< 30`
  threshold comparisons the code performs).
* `src/pipeline-luigi-gatk.py` — `run_cmd` and the `Site_Frequency_Spectrum`
  task's run action (the subprocess collaborator is modelled by its observable
  result: return code, captured stdout, captured stderr).
* `src/bioinf-luigi.py` — its separate `run_cmd` helper.
* `src/pipeline_dadi.py` — the `DadiSpectrum` projection computation and the
  `DadiModelOptimizeParams.run` optimisation loop (the external dadi
  perturb/optimize/evaluate collaborators are modelled as a per-iteration
  oracle trace recording the produced log-likelihood, theta, parameter vector,
  and whether the evaluation was flagged "Model is masked" in the buffered
  warnings).
-/

/-! ## Python runtime primitives -/

/-- Python exception kinds raised by the embedded code paths. -/
inductive PyErr
  | indexError
  | valueError
  | typeError
  | keyError
  | unboundLocalError
deriving DecidableEq, Repr

/-- Python `xs[i]` for a non-negative index: `IndexError` when out of range. -/
def pyGet {α : Type} (xs : List α) (i : Nat) : Except PyErr α :=
  match xs.get? i with
  | some a => .ok a
  | none => .error .indexError

/-- Python `xs.index(x)` on a list of strings: position of the first
occurrence, `ValueError` when absent. -/
def pyIndex : List String → String → Except PyErr Nat
  | [], _ => .error .valueError
  | y :: ys, x => if y = x then .ok 0 else (pyIndex ys x).map (· + 1)

/-- Split a character list on a separator character, Python `str.split(sep)`
semantics: `""` yields `[""]`, separators at the ends yield empty pieces. -/
def splitOnChar (sep : Char) : List Char → List (List Char)
  | [] => [[]]
  | c :: cs =>
    let r := splitOnChar sep cs
    if c = sep then [] :: r
    else
      match r with
      | g :: gs => (c :: g) :: gs
      | [] => [[c]]

/-- Python `s.split(sep)` for a single-character separator. -/
def pySplit (s : String) (sep : Char) : List String :=
  (splitOnChar sep s.data).map String.mk

/-- Accumulating decimal digit reader: `some` of the value when every
character is a digit (the empty list reads as `some acc`), `none` otherwise. -/
def pyDigits (acc : Nat) : List Char → Option Nat
  | [] => some acc
  | c :: cs => if c.isDigit then pyDigits (acc * 10 + (c.toNat - 48)) cs else none

/-- Powers of ten, for decimal fraction values. -/
def pow10 : Nat → Nat
  | 0 => 1
  | n + 1 => 10 * pow10 n

/-- Magnitude part of Python `float(s)`: decimal forms `d+`, `d+.d*`, `.d+`,
`d*.d+` as exact rationals; anything else raises `ValueError`. These are the
forms a VCF QUAL column carries. -/
def pyFloatMag (l : List Char) : Except PyErr Rat :=
  match splitOnChar '.' l with
  | [ip] =>
    if ip = [] then .error .valueError
    else
      match pyDigits 0 ip with
      | some n => .ok (mkRat (Int.ofNat n) 1)
      | none => .error .valueError
  | [ip, fp] =>
    if ip = [] ∧ fp = [] then .error .valueError
    else
      match pyDigits 0 ip, pyDigits 0 fp with
      | some n, some f => .ok (mkRat (Int.ofNat (n * pow10 fp.length + f)) (pow10 fp.length))
      | _, _ => .error .valueError
  | _ => .error .valueError

/-- Python `float(s)` restricted to signed decimal forms. -/
def pyFloat (s : String) : Except PyErr Rat :=
  match s.data with
  | '-' :: rest => (pyFloatMag rest).map (fun q => -q)
  | '+' :: rest => pyFloatMag rest
  | l => pyFloatMag l

/-- Python `int(s)` for signed decimal integer strings; `ValueError`
otherwise. -/
def pyInt (s : String) : Except PyErr Int :=
  match s.data with
  | '-' :: rest =>
    if rest = [] then .error .valueError
    else
      match pyDigits 0 rest with
      | some n => .ok (-(Int.ofNat n))
      | none => .error .valueError
  | l =>
    if l = [] then .error .valueError
    else
      match pyDigits 0 l with
      | some n => .ok (Int.ofNat n)
      | none => .error .valueError

/-- Python `lst.remove(x)`: the expression's value is `None` when `x` occurs
in the list (the mutation is irrelevant here because the source discards the
list), and the call raises `ValueError` when `x` is absent. The `Option`
result records the Python value the surrounding expression sees. -/
def pyListRemove (xs : List String) (x : String) : Except PyErr (Option (List String)) :=
  if x ∈ xs then .ok none else .error .valueError

/-- Python `len(v)` applied to a value that is either a list or `None`:
`len(None)` raises `TypeError`. -/
def pyLen : Option (List String) → Except PyErr Nat
  | none => .error .typeError
  | some l => .ok l.length

/-! ## Association-list embedding of Python dictionaries -/

/-- First-occurrence lookup in an association list (Python `d[k]` read). -/
def alLookup {α β : Type} [DecidableEq α] : List (α × β) → α → Option β
  | [], _ => none
  | (k, v) :: rest, key => if k = key then some v else alLookup rest key

/-- Python `d[k]` read: `KeyError` when the key is absent. -/
def dictGet {α β : Type} [DecidableEq α] (d : List (α × β)) (k : α) : Except PyErr β :=
  match alLookup d k with
  | some v => .ok v
  | none => .error .keyError

/-- Python `d[k] = v` write: replace the first occurrence, append when the
key is absent. -/
def dictSet {α β : Type} [DecidableEq α] : List (α × β) → α → β → List (α × β)
  | [], k, v => [(k, v)]
  | (k', v') :: rest, k, v =>
    if k' = k then (k, v) :: rest else (k', v') :: dictSet rest k v

/-- Python `defaultdict(int)` read: absent keys read as `0`. -/
def ddGet {α : Type} [DecidableEq α] (d : List (α × Int)) (k : α) : Int :=
  (alLookup d k).getD 0

/-! ## Data model of `src/vcfparser.py` -/

/-- A site is indexed by chromosome and position, `vcfparser.py` line 41. -/
abbrev Site := String × String

/-- `defaultdict(int)` of population name to allele count. -/
abbrev PopCounts := List (String × Int)

/-- Per-site dictionary of allele to population counts. -/
abbrev SiteData := List (String × PopCounts)

/-- The `variants` dictionary: site to allele to population to count. -/
abbrev Variants := List (Site × SiteData)

/-- One `logging.debug` line emitted by `extract_variant_sites`; the payload
fields mirror the format arguments in the source. -/
inductive LogEntry
  | lowQual (population : String) (site : Site) (qual : String)
  | polyAllelic (population : String) (site : Site) (ref : String)
  | inDel (population : String) (site : Site) (ref alt : String)
  | lowCoverage (population : String) (site : Site) (sample : String) (dp : String)
deriving DecidableEq, Repr

/-- A VCF file as `extract_variant_sites` reads it: the whitespace-split
column-header line (`#CHROM POS ... FORMAT <sample>...`) and the
whitespace-split data rows. The `##` block-comment skipping of lines 26-33
delivers exactly these two pieces. -/
structure VcfFile where
  columns : List String
  rows : List (List String)

/-- VCF column index constants, `vcfparser.py` lines 10-19. -/
def CHROM : Nat := 0

/-- Position column index. -/
def POS : Nat := 1

/-- Reference-allele column index. -/
def REF : Nat := 3

/-- Alternate-allele column index. -/
def ALT : Nat := 4

/-- Quality column index. -/
def QUAL : Nat := 5

/-- Format column index. -/
def FORMAT : Nat := 8

/-- `variants[site][ref][population] += n` (`vcfparser.py` lines 102-111):
reading `variants[site]` or `variants[site][allele]` raises `KeyError` when
absent; the innermost `defaultdict(int)` defaults the population to `0`. -/
def incr (v : Variants) (site : Site) (allele population : String) (n : Int) :
    Except PyErr Variants := do
  let sd ← dictGet v site
  let pc ← dictGet sd allele
  .ok (dictSet v site (dictSet sd allele (dictSet pc population (ddGet pc population + n))))

/-- Observed count for one (site, allele, population) cell of the `variants`
structure; absent site or allele entries read as `0`. -/
def cellCount (v : Variants) (site : Site) (allele population : String) : Int :=
  match alLookup v site with
  | none => 0
  | some sd =>
    match alLookup sd allele with
    | none => 0
    | some pc => ddGet pc population

/-- The site quality filter condition of `vcfparser.py` line 44:
`locus[QUAL] != '.' and float(locus[QUAL]) < 30`, with Python `and`
short-circuiting so `'.'` is never parsed as a float. -/
def qual_skip (qualS : String) : Except PyErr Bool :=
  if qualS = "." then .ok false
  else (pyFloat qualS).map (fun q => decide (q < 30))

/-- Line 60, `alt = ref if not alt_list else alt[0]`: `None` and the empty
list are falsy so `alt` becomes `ref`; a non-empty list would evaluate
`alt[0]` whose name `alt` is still unassigned in the function's scope, an
`UnboundLocalError`. -/
def altResolve (alt_list : Option (List String)) (ref : String) : Except PyErr String :=
  match alt_list with
  | none => .ok ref
  | some [] => .ok ref
  | some (_ :: _) => .error .unboundLocalError

/-- Allele initialisation of lines 72-74: `variants[site][allele]` becomes an
empty `defaultdict(int)` unless already present. -/
def init_allele (v : Variants) (site : Site) (allele : String) : Except PyErr Variants := do
  let sd ← dictGet v site
  if (alLookup sd allele).isSome then .ok v
  else .ok (dictSet v site (dictSet sd allele []))

/-- Line 87: `locus[columns.index(sample)].split(':')`. -/
def sample_genotype (columns locus : List String) (sample : String) :
    Except PyErr (List String) := do
  let ci ← pyIndex columns sample
  let gcol ← pyGet locus ci
  .ok (pySplit gcol ':')

/-- Per-sample body of the `for sample in samples` loop, `vcfparser.py`
lines 84-111: the depth and genotype-quality filters (both of which log a
`LowCoverage` line carrying the DP string, as the source does on lines 91 and
96), then the three-way genotype classification incrementing the allele
counters. A genotype string matching none of `0/0`, `0/1`, `1/1` falls
through the `if`/`elif` chain: no counter changes and nothing is logged. -/
def process_sample (population : String) (site : Site) (ref alt : String)
    (columns locus : List String) (gti dpi gqi : Nat) (sample : String)
    (v : Variants) (log : List LogEntry) : Except PyErr (Variants × List LogEntry) := do
  let genotype ← sample_genotype columns locus sample
  let dpS ← pyGet genotype dpi
  let dp ← pyInt dpS
  if dp < 5 then
    .ok (v, log ++ [.lowCoverage population site sample dpS])
  else do
    let gqS ← pyGet genotype gqi
    let gq ← pyInt gqS
    if gq < 30 then
      .ok (v, log ++ [.lowCoverage population site sample dpS])
    else do
      let gt ← pyGet genotype gti
      if gt = "0/0" then
        (incr v site ref population 2).map (fun v2 => (v2, log))
      else if gt = "0/1" then do
        let v1 ← incr v site ref population 1
        let v2 ← incr v1 site alt population 1
        .ok (v2, log)
      else if gt = "1/1" then
        (incr v site alt population 2).map (fun v2 => (v2, log))
      else
        .ok (v, log)

/-- The sample loop of line 84, threading the variants structure and the log
through `process_sample` for each sample in order. -/
def process_samples (population : String) (site : Site) (ref alt : String)
    (columns locus : List String) (gti dpi gqi : Nat) :
    List String → Variants → List LogEntry → Except PyErr (Variants × List LogEntry)
  | [], v, log => .ok (v, log)
  | s :: rest, v, log => do
    let r ← process_sample population site ref alt columns locus gti dpi gqi s v log
    process_samples population site ref alt columns locus gti dpi gqi rest r.1 r.2

/-- Continuation of per-record processing after the quality filter retained
the record, `vcfparser.py` lines 49-111: the alternate-allele handling (note
line 52 applies `.remove('<NON_REF>')` to the split list, so the value bound
to `alt_list` is `None` whenever the removal does not raise), the polyallelic
and indel filters, site and allele initialisation, format-index lookup, and
the per-sample loop. -/
def process_record_rest (population : String) (samples columns locus : List String)
    (site : Site) (v : Variants) (log : List LogEntry) :
    Except PyErr (Variants × List LogEntry) := do
  let ref ← pyGet locus REF
  let altField ← pyGet locus ALT
  let alt_list ← pyListRemove (pySplit altField ',') "<NON_REF>"
  let nAlt ← pyLen alt_list
  if nAlt > 1 then
    .ok (v, log ++ [.polyAllelic population site ref])
  else do
    let alt ← altResolve alt_list ref
    if ref.length > 1 ∨ alt.length > 1 then
      .ok (v, log ++ [.inDel population site ref alt])
    else do
      let v1 := if (alLookup v site).isSome then v else dictSet v site []
      let v2 ← init_allele v1 site ref
      let v3 ← init_allele v2 site alt
      let fmtS ← pyGet locus FORMAT
      let fmt := pySplit fmtS ':'
      let gti ← pyIndex fmt "GT"
      let dpi ← pyIndex fmt "DP"
      let gqi ← pyIndex fmt "GQ"
      process_samples population site ref alt columns locus gti dpi gqi samples v3 log

/-- One iteration of the `for line in infile` loop of `extract_variant_sites`,
`vcfparser.py` lines 35-111: site extraction, the quality filter (a skip
appends the `LowQual` log line and leaves the variants untouched), then the
rest of the record processing. -/
def process_record (population : String) (samples columns locus : List String)
    (v : Variants) (log : List LogEntry) : Except PyErr (Variants × List LogEntry) := do
  let chrom ← pyGet locus CHROM
  let pos ← pyGet locus POS
  let site : Site := (chrom, pos)
  let qualS ← pyGet locus QUAL
  let skip ← qual_skip qualS
  if skip then .ok (v, log ++ [.lowQual population site qualS])
  else process_record_rest population samples columns locus site v log

/-- The record loop over a file's data rows. -/
def extract_go (population : String) (samples columns : List String) :
    List (List String) → Variants → List LogEntry → Except PyErr (Variants × List LogEntry)
  | [], v, log => .ok (v, log)
  | row :: rest, v, log => do
    let r ← process_record population samples columns row v log
    extract_go population samples columns rest r.1 r.2

/-- `extract_variant_sites(population, samples, variants)` of `vcfparser.py`
lines 21-111. The in-place mutation of `variants` and the `logging.debug`
side channel are returned explicitly; an uncaught Python exception is the
`Except.error` case and aborts the remaining rows. -/
def extract_variant_sites (population : String) (samples : List String)
    (file : VcfFile) (v : Variants) (log : List LogEntry) :
    Except PyErr (Variants × List LogEntry) :=
  extract_go population samples file.columns file.rows v log

/-- The population loop of `generate_frequency_spectrum`, lines 125-126,
threading the single shared `variants` dictionary through each population's
extraction. `files` is the filesystem collaborator mapping a population name
to the content of `./vcf/<population>.vcf`. -/
def build_go (files : String → VcfFile) :
    List (String × List String) → Variants → List LogEntry →
    Except PyErr (Variants × List LogEntry)
  | [], v, log => .ok (v, log)
  | (pop, samples) :: rest, v, log => do
    let r ← extract_variant_sites pop samples (files pop) v log
    build_go files rest r.1 r.2

/-- The variants structure built by `generate_frequency_spectrum` starting
from the empty dictionary of line 122. -/
def build_variants (populations : List (String × List String)) (files : String → VcfFile) :
    Except PyErr (Variants × List LogEntry) :=
  build_go files populations [] []

/-- `generate_frequency_spectrum(populations)`, `vcfparser.py` lines 113-133:
builds the variants dictionary, pretty-prints it to standard output (a side
effect that does not reach the caller), and falls off the end of the
function — its Python return value is `None`, embedded as `Option String`
being `none` (a serialized text would be `some`). -/
def generate_frequency_spectrum (populations : List (String × List String))
    (files : String → VcfFile) : Except PyErr (Option String) := do
  let _ ← build_variants populations files
  .ok none

/-- Python 2 `file.write(s)`: writing `None` raises
`TypeError: expected a character buffer object`. -/
def pyFileWrite (s : Option String) : Except PyErr Unit :=
  match s with
  | some _ => .ok ()
  | none => .error .typeError

/-- `Site_Frequency_Spectrum.run` of `src/pipeline-luigi-gatk.py` lines
406-416: `fsdata = generate_frequency_spectrum(self.populations)` followed by
`fout.write(fsdata)` on the declared output target. -/
def Site_Frequency_Spectrum_run (populations : List (String × List String))
    (files : String → VcfFile) : Except PyErr Unit := do
  let fsdata ← generate_frequency_spectrum populations files
  pyFileWrite fsdata

-- Decidable equality for embedded Python results.
deriving instance DecidableEq for Except

/-- Registered instance for the nested variants structure (the generic search
does not find the list instance through the abbreviations unaided). -/
instance : DecidableEq Variants := instDecidableEqList

/-! ## `run_cmd` of `src/pipeline-luigi-gatk.py` and `src/bioinf-luigi.py` -/

/-- A Python value passed in a command list: the callers pass strings and
integers (compression level, core counts). -/
inductive PyArg
  | s (v : String)
  | i (v : Int)
deriving DecidableEq, Repr

/-- Python `str(arg)` for the argument kinds the callers use. -/
def pyStr : PyArg → String
  | .s v => v
  | .i v => toString v

/-- The observable result of `subprocess.Popen(...).communicate()` for one
invocation: exit status and the captured output streams. The subprocess
itself is the external collaborator; only its result reaches the code. -/
structure ProcResult where
  returncode : Int
  stdout : String
  stderr : String
deriving DecidableEq, Repr

/-- What a `run_cmd` call does from its caller's point of view: either the
function returns captured stdout, or it prints the captured stderr and calls
`exit()`, never returning. -/
inductive CmdOutcome
  | returned (out : String)
  | exited (printedStderr : String)
deriving DecidableEq, Repr

/-- The `shell` keyword passed to `Popen` by `pipeline-luigi-gatk.py`
line 62: the command is an explicit argument vector, not a shell string. -/
def run_cmd_gatk_shell : Bool := false

/-- The `shell` keyword passed to `Popen` by `bioinf-luigi.py` line 17. -/
def run_cmd_bioinf_shell : Bool := false

/-- The stringified argument vector `[str(args) for args in cmd]` of
`pipeline-luigi-gatk.py` line 55. -/
def run_cmd_gatk_argv (cmd : List PyArg) : List String :=
  cmd.map pyStr

/-- `run_cmd` of `src/pipeline-luigi-gatk.py` lines 46-77: both stdout and
stderr are piped; `if proc.returncode:` (truthy on any nonzero status) prints
the captured stderr and calls `exit()`; otherwise the captured stdout is
returned. -/
def run_cmd_gatk (cmd : List PyArg) (proc : ProcResult) : CmdOutcome :=
  let _ := run_cmd_gatk_argv cmd
  if proc.returncode ≠ 0 then .exited proc.stderr else .returned proc.stdout

/-- `run_cmd` of `src/bioinf-luigi.py` lines 16-20: only stdout is piped
(`error` is bound to `None`), the return code is never inspected, and the
captured stdout is returned unconditionally. -/
def run_cmd_bioinf (cmd : List String) (proc : ProcResult) : CmdOutcome :=
  let _ := cmd
  .returned proc.stdout

/-! ## `src/pipeline_dadi.py` -/

/-- `GROUPS`-style table: group name to population name to sample list. -/
abbrev Groups := List (String × List (String × List String))

/-- The per-population projection size computed by `DadiSpectrum.run`,
`pipeline_dadi.py` line 72: `(len(GROUPS[self.group][pop]) - 1) * 2`. -/
def dadi_projection (samples : List String) : Int :=
  ((samples.length : Int) - 1) * 2

/-- The `prj` list passed to `dadi.Spectrum.from_data_dict` on line 75:
`[(len(GROUPS[self.group][pop]) - 1) * 2 for pop in [pop1, pop2]]`. -/
def DadiSpectrum_prj (groups : Groups) (group pop1 pop2 : String) :
    Except PyErr (List Int) := do
  let g ← dictGet groups group
  let s1 ← dictGet g pop1
  let s2 ← dictGet g pop2
  .ok [dadi_projection s1, dadi_projection s2]

/-- Externally observed outcome of one iteration of the optimisation loop of
`DadiModelOptimizeParams.run` (lines 126-192): the perturbation, the
`optimize_log` call and the model evaluation are external dadi collaborators,
so one iteration is summarised by the log-likelihood, theta and parameter
vector they produce, plus whether the buffered dadi warnings contained
"Model is masked" for that evaluation. -/
structure OptIter where
  ll : Rat
  theta : Rat
  p_opt : List Rat
  masked : Bool
deriving DecidableEq, Repr

/-- Python `<` on lists of floats: lexicographic comparison. -/
def listLexLt : List Rat → List Rat → Bool
  | [], [] => false
  | [], _ :: _ => true
  | _ :: _, [] => false
  | a :: as, b :: bs => if a < b then true else if b < a then false else listLexLt as bs

/-- Stable descending insertion, matching `list.sort(reverse=True)` order:
an element moves ahead only of elements strictly smaller than it. -/
def insertDesc (x : List Rat) : List (List Rat) → List (List Rat)
  | [] => [x]
  | y :: ys => if listLexLt y x then x :: y :: ys else y :: insertDesc x ys

/-- `p_best.sort(reverse=True)` of `pipeline_dadi.py` line 185. -/
def sortDesc : List (List Rat) → List (List Rat)
  | [] => []
  | x :: xs => insertDesc x (sortDesc xs)

/-- The iteration loop of `DadiModelOptimizeParams.run`, lines 126-192,
accumulating `p_best`: a non-masked evaluation appends
`[ll_model, theta] + list(p_opt)` and re-sorts descending; a masked one is
discarded. (The `p_start` re-seeding on lines 187-192 only feeds the external
perturb/optimize collaborators, whose outputs the `iters` trace records.) -/
def opt_loop : List OptIter → List (List Rat) → List (List Rat)
  | [], p_best => p_best
  | it :: rest, p_best =>
    if it.masked then opt_loop rest p_best
    else opt_loop rest (sortDesc (p_best ++ [[it.ll, it.theta] ++ it.p_opt]))

/-- The distinguishable failure raised on lines 196-199, carrying the group,
model, scenario and restart number from the task's format string. -/
inductive DadiErr
  | noValidParams (group model scenario : String) (n : Nat)
deriving DecidableEq, Repr

/-- `DadiModelOptimizeParams.run` after the loop, lines 194-202: when
`p_best` is empty the named exception is raised (before the output file is
ever opened, so nothing is persisted); otherwise the ranked list is pickled
to the declared output — the `.ok` payload is exactly what is written. -/
def DadiModelOptimizeParams_run (group model scenario : String) (n : Nat)
    (iters : List OptIter) : Except DadiErr (List (List Rat)) :=
  let p_best := opt_loop iters []
  if p_best = [] then .error (.noValidParams group model scenario n)
  else .ok p_best

/-! ## Concrete fixtures used by the claim theorems -/

/-- A standard single-sample VCF column-header line, whitespace-split. -/
def stdCols : List String :=
  ["#CHROM", "POS", "ID", "REF", "ALT", "QUAL", "FILTER", "INFO", "FORMAT", "S1"]

/-- A record whose quality 29.9 is below the threshold 30. -/
def rowLowQual : List String :=
  ["1", "100", ".", "A", "A,<NON_REF>", "29.9", ".", ".", "GT:DP:GQ", "0/1:9:35"]

/-- A well-formed single-alternate record at the quality boundary 30.0. -/
def row30 : List String :=
  ["1", "101", ".", "A", "A", "30.0", ".", ".", "GT:DP:GQ", "0/1:9:35"]

/-- A record with two real alternate alleles in its ALT field. -/
def rowAltAT : List String :=
  ["1", "102", ".", "A", "A,T", "50.0", ".", ".", "GT:DP:GQ", "0/1:9:35"]

/-- A record with two real alternate alleles plus the `<NON_REF>`
placeholder. -/
def rowAltATNR : List String :=
  ["1", "103", ".", "A", "A,T,<NON_REF>", "50.0", ".", ".", "GT:DP:GQ", "0/1:9:35"]

/-- A malformed record: a single column instead of ten. -/
def rowShort : List String :=
  ["1"]

/-- A variants dictionary holding one initialised site with alleles A and T,
as lines 67-74 produce it. -/
def vInit : Variants :=
  [(("1", "100"), [("A", []), ("T", [])])]

/-- A filesystem collaborator serving an empty VCF body for population "A"
containing only a low-quality record, and a record-free file otherwise. -/
def files0 : String → VcfFile :=
  fun p => if p = "A" then ⟨stdCols, [rowLowQual]⟩ else ⟨stdCols, []⟩

/-- A two-group `GROUPS` table with sample counts 2 and 3. -/
def groups0 : Groups :=
  [("g", [("P1", ["s1", "s2"]), ("P2", ["t1", "t2", "t3"])])]

/-- A record with a sample of depth 4, below the coverage threshold 5. -/
def rowDp4 : List String :=
  ["1", "100", ".", "A", "T", ".", ".", ".", "GT:DP:GQ", "0/0:4:35"]

/-- A record with a homozygous-reference sample of depth 5 and genotype
quality exactly 30, at both retention boundaries. -/
def rowDp5 : List String :=
  ["1", "100", ".", "A", "T", ".", ".", ".", "GT:DP:GQ", "0/0:5:30"]

/-- A record whose sample has good depth and quality but an uncalled `./.`
genotype string. -/
def rowDotDot : List String :=
  ["1", "100", ".", "A", "T", ".", ".", ".", "GT:DP:GQ", "./.:9:35"]

/-- The variants structure after one heterozygous sample contribution. -/
def vHet : Variants := [(("1", "100"), [("A", [("P", 1)]), ("T", [("P", 1)])])]

/-- Two populations in one processing order. -/
def popsA : List (String × List String) := [("A", ["S1"]), ("B", ["S1"])]

/-- The same two populations in the swapped processing order. -/
def popsB : List (String × List String) := [("B", ["S1"]), ("A", ["S1"])]

/-! ## General lemmas about the embedded Python primitives -/

/-- Unfolding lemma: a monadic `Except` chain yields `.ok` exactly when the
first step yields `.ok` and the continuation does on its value. -/
theorem exceptBind_ok_iff {α β : Type} {x : Except PyErr α} {f : α → Except PyErr β} {b : β} :
    x >>= f = .ok b ↔ ∃ a, x = .ok a ∧ f a = .ok b := by
  cases x <;> simp [Bind.bind, Except.bind]

/-- Bind on an `.ok` value reduces to the continuation. -/
theorem exceptBind_pure {α β : Type} (a : α) (f : α → Except PyErr β) :
    (Except.ok a : Except PyErr α) >>= f = f a := rfl

/-- Whenever line 52's `.split(',').remove('<NON_REF>')` does not raise, the
value it hands to the rest of the function is Python `None`. -/
theorem pyListRemove_ok {xs : List String} {x : String} {o : Option (List String)}
    (h : pyListRemove xs x = .ok o) : o = none := by
  unfold pyListRemove at h
  split at h <;> simp_all

/-- Reading a key just written reads the written value; other keys are
unaffected. -/
theorem alLookup_dictSet {α β : Type} [DecidableEq α] (d : List (α × β)) (k : α) (val : β)
    (k' : α) :
    alLookup (dictSet d k val) k' = if k' = k then some val else alLookup d k' := by
  induction d with
  | nil =>
    simp only [dictSet, alLookup]
    rcases eq_or_ne k k' with rfl | h
    · simp
    · simp [h, Ne.symm h]
  | cons p rest ih =>
    obtain ⟨a, b⟩ := p
    simp only [dictSet]
    rcases eq_or_ne a k with rfl | hak
    · simp only [if_pos rfl, alLookup]
      rcases eq_or_ne a k' with rfl | h
      · simp
      · simp [h, Ne.symm h, alLookup]
    · simp only [if_neg hak, alLookup]
      rcases eq_or_ne a k' with rfl | h
      · simp [hak]
      · simp [h, Ne.symm h, ih]

/-- The defaulted counter read after a write. -/
theorem ddGet_dictSet {α : Type} [DecidableEq α] (d : List (α × Int)) (k : α) (val : Int)
    (k' : α) :
    ddGet (dictSet d k val) k' = if k' = k then val else ddGet d k' := by
  unfold ddGet
  rw [alLookup_dictSet]
  rcases eq_or_ne k' k with rfl | h
  · simp
  · simp [h]

/-- A dictionary read succeeds exactly on present keys. -/
theorem dictGet_eq_ok {α β : Type} [DecidableEq α] {d : List (α × β)} {k : α} {b : β} :
    dictGet d k = .ok b ↔ alLookup d k = some b := by
  unfold dictGet
  cases h : alLookup d k <;> simp

/-- A successful `variants[site][allele][population] += n` adds `n` to exactly
that cell of the structure and changes no other cell. -/
theorem incr_cell {v v' : Variants} {site : Site} {allele population : String} {n : Int}
    (h : incr v site allele population n = .ok v') :
    ∀ s a p, cellCount v' s a p
      = cellCount v s a p + (if s = site ∧ a = allele ∧ p = population then n else 0) := by
  unfold incr at h
  simp only [exceptBind_ok_iff] at h
  obtain ⟨sd, hsd, h⟩ := h
  obtain ⟨pc, hpc, h⟩ := h
  rw [dictGet_eq_ok] at hsd hpc
  simp only [Except.ok.injEq] at h
  subst h
  intro s a p
  by_cases hs : s = site
  · subst hs
    by_cases ha : a = allele
    · subst ha
      by_cases hp : p = population
      · subst hp
        simp [cellCount, alLookup_dictSet, hsd, hpc, ddGet_dictSet]
      · simp [cellCount, alLookup_dictSet, hsd, hpc, ddGet_dictSet, hp]
    · simp [cellCount, alLookup_dictSet, hsd, ha]
  · simp [cellCount, alLookup_dictSet, hs]

/-! ## Behaviour of the record-processing pipeline -/

/-- Every record that passes the quality filter aborts in the alternate
allele handling of lines 52-60: `.remove` either raises `ValueError` (when
`<NON_REF>` is absent from the split ALT field) or hands `None` to `len`,
which raises `TypeError`; the code below line 55 is unreachable. -/
theorem process_record_rest_err (population : String) (samples columns locus : List String)
    (site : Site) (v : Variants) (log : List LogEntry) :
    ∃ e, process_record_rest population samples columns locus site v log = .error e := by
  unfold process_record_rest
  cases h1 : pyGet locus REF with
  | error e => exact ⟨e, by simp [Bind.bind, Except.bind, h1]⟩
  | ok ref =>
    cases h2 : pyGet locus ALT with
    | error e => exact ⟨e, by simp [Bind.bind, Except.bind, h1, h2]⟩
    | ok altF =>
      cases h3 : pyListRemove (pySplit altF ',') "<NON_REF>" with
      | error e => exact ⟨e, by simp [Bind.bind, Except.bind, h1, h2, h3]⟩
      | ok o =>
        have : o = none := pyListRemove_ok h3
        subst this
        exact ⟨.typeError, by simp [Bind.bind, Except.bind, h1, h2, h3, pyLen]⟩

/-- A record iteration that completes without raising leaves the variants
dictionary unchanged (it can only have been a quality-filter skip). -/
theorem process_record_ok {population : String} {samples columns locus : List String}
    {v v' : Variants} {log log' : List LogEntry}
    (h : process_record population samples columns locus v log = .ok (v', log')) :
    v' = v := by
  unfold process_record at h
  simp only [exceptBind_ok_iff] at h
  obtain ⟨chrom, hc, h⟩ := h
  obtain ⟨pos, hp, h⟩ := h
  obtain ⟨qualS, hq, h⟩ := h
  obtain ⟨skip, hs, h⟩ := h
  cases skip with
  | true =>
    simp at h
    exact h.1.symm
  | false =>
    simp only [Bool.false_eq_true, if_neg] at h
    obtain ⟨e, he⟩ := process_record_rest_err population samples columns locus (chrom, pos) v log
    rw [he] at h
    exact absurd h (by simp)

/-- The record loop preserves the variants dictionary whenever it completes. -/
theorem extract_go_ok {population : String} {samples columns : List String}
    {rows : List (List String)} {v v' : Variants} {log log' : List LogEntry}
    (h : extract_go population samples columns rows v log = .ok (v', log')) :
    v' = v := by
  induction rows generalizing v log with
  | nil =>
    unfold extract_go at h
    simp at h
    exact h.1.symm
  | cons row rest ih =>
    unfold extract_go at h
    simp only [exceptBind_ok_iff] at h
    obtain ⟨⟨v1, log1⟩, h1, h2⟩ := h
    have hv1 : v1 = v := process_record_ok h1
    subst hv1
    exact ih h2

/-- A completed `extract_variant_sites` call leaves `variants` as it found
it. -/
theorem extract_variant_sites_ok {population : String} {samples : List String}
    {file : VcfFile} {v v' : Variants} {log log' : List LogEntry}
    (h : extract_variant_sites population samples file v log = .ok (v', log')) :
    v' = v :=
  extract_go_ok h

/-- The population loop preserves the variants dictionary whenever it
completes. -/
theorem build_go_ok {files : String → VcfFile} {populations : List (String × List String)}
    {v v' : Variants} {log log' : List LogEntry}
    (h : build_go files populations v log = .ok (v', log')) :
    v' = v := by
  induction populations generalizing v log with
  | nil =>
    unfold build_go at h
    simp at h
    exact h.1.symm
  | cons p rest ih =>
    obtain ⟨pop, samples⟩ := p
    unfold build_go at h
    simp only [exceptBind_ok_iff] at h
    obtain ⟨⟨v1, log1⟩, h1, h2⟩ := h
    have hv1 : v1 = v := extract_variant_sites_ok h1
    subst hv1
    exact ih h2

/-- Whenever `generate_frequency_spectrum` finishes without raising, the
variants structure it aggregated is the empty dictionary it started from. -/
theorem build_variants_ok {populations : List (String × List String)}
    {files : String → VcfFile} {v : Variants} {log : List LogEntry}
    (h : build_variants populations files = .ok (v, log)) :
    v = [] :=
  build_go_ok h

/-- A fully masked iteration trace accumulates nothing into `p_best`. -/
theorem opt_loop_all_masked (iters : List OptIter) (acc : List (List Rat))
    (h : ∀ it ∈ iters, it.masked = true) : opt_loop iters acc = acc := by
  induction iters generalizing acc with
  | nil => rfl
  | cons it rest ih =>
    unfold opt_loop
    rw [if_pos (h it (List.mem_cons_self it rest))]
    exact ih acc (fun x hx => h x (List.mem_cons_of_mem it hx))

/-! ## Claim theorems -/

/-- Claim C1: for every populations mapping, `generate_frequency_spectrum`
does not return a serialized text form of the aggregated structure — it
pretty-prints to standard output and returns `None` — so the
`Site_Frequency_Spectrum` run action, which writes that return value to its
declared output file, always raises (a `TypeError` from `write(None)` when
the build itself completes) and never produces the output; the concrete
conjuncts evaluate the code on a one-population input. -/
theorem generate_frequency_spectrum_returns_none :
    (∀ populations files, ∃ e, Site_Frequency_Spectrum_run populations files = .error e) ∧
    generate_frequency_spectrum [("A", ["S1"])] files0 = .ok none ∧
    Site_Frequency_Spectrum_run [("A", ["S1"])] files0 = .error .typeError := by
  refine ⟨?_, by decide, by decide⟩
  intro populations files
  unfold Site_Frequency_Spectrum_run generate_frequency_spectrum
  cases hb : build_variants populations files with
  | error e => exact ⟨e, by simp [Bind.bind, Except.bind, hb]⟩
  | ok r => exact ⟨.typeError, by simp [Bind.bind, Except.bind, hb, pyFileWrite]⟩

/-- Claim C2: a record with alternate-allele field `A,T` is not skipped as
PolyAllelic — `'A,T'.split(',').remove('<NON_REF>')` raises `ValueError`
(and with the placeholder present, `A,T,<NON_REF>`, the expression's value is
`None` so `len(alt_list)` raises `TypeError`), aborting the whole extraction
instead of continuing with the remaining records. -/
theorem polyallelic_record_crashes :
    process_record "P" ["S1"] stdCols rowAltAT [] [] = .error .valueError ∧
    process_record "P" ["S1"] stdCols rowAltATNR [] [] = .error .typeError ∧
    extract_variant_sites "P" ["S1"] ⟨stdCols, [rowAltAT, rowLowQual]⟩ [] []
      = .error .valueError := by
  refine ⟨by decide, by decide, by decide⟩

/-- Claim C3 counterexample: a file whose first record has a single column
(wrong column count) makes `extract_variant_sites` raise `IndexError`; the
following well-formed record is never processed, contradicting the claimed
skip-and-continue behaviour. -/
theorem malformed_record_aborts_cex :
    extract_variant_sites "P" ["S1"] ⟨stdCols, [rowShort, rowLowQual]⟩ [] []
      = .error .indexError := by decide

/-- Claim C3 as amended: `extract_variant_sites` has no recovery path — a
record with a wrong column count raises an uncaught `IndexError` that aborts
the whole extraction, for any population, sample list, column header,
remaining rows, and prior state; no skip is logged for it. -/
theorem malformed_record_aborts (population : String) (samples columns : List String)
    (rest : List (List String)) (v : Variants) (log : List LogEntry) :
    extract_variant_sites population samples ⟨columns, rowShort :: rest⟩ v log
      = .error .indexError := rfl

/-- Claim C4: whenever two permutations of the population processing order
both complete, they build identical aggregated variants structures (in the
code as written both equal the initial empty dictionary, because the allele
counting is unreachable — see C2). -/
theorem build_variants_perm_invariant (pops1 pops2 : List (String × List String))
    (files : String → VcfFile) (v1 v2 : Variants) (log1 log2 : List LogEntry)
    (hperm : List.Perm pops1 pops2)
    (h1 : build_variants pops1 files = .ok (v1, log1))
    (h2 : build_variants pops2 files = .ok (v2, log2)) : v1 = v2 := by
  rw [build_variants_ok h1, build_variants_ok h2]

/-- Claim C4 witness: the two-population example evaluated in both orders. -/
theorem build_variants_perm_invariant_witness :
    List.Perm popsA popsB ∧
    build_variants popsA files0 = .ok ([], [LogEntry.lowQual "A" ("1", "100") "29.9"]) ∧
    build_variants popsB files0 = .ok ([], [LogEntry.lowQual "A" ("1", "100") "29.9"]) ∧
    ([] : Variants) = [] :=
  ⟨List.Perm.swap ("B", ["S1"]) ("A", ["S1"]) [], by decide, by decide,
    build_variants_perm_invariant popsA popsB files0 [] []
      [LogEntry.lowQual "A" ("1", "100") "29.9"] [LogEntry.lowQual "A" ("1", "100") "29.9"]
      (List.Perm.swap ("B", ["S1"]) ("A", ["S1"]) []) (by decide) (by decide)⟩

/-- Claim C5: a per-sample step that completes contributes exactly (0,0),
(2,0), (0,2) or (1,1) to the (reference, alternate) cells of its population's
counters at the site, and nothing anywhere else; moreover either nothing was
logged, or the sample was filtered (`LowCoverage` logged for a depth or
genotype-quality failure) and then the counters are untouched — a filtered
sample is never counted as reference-homozygous. -/
theorem process_sample_diploid (population : String) (site : Site) (ref alt : String)
    (columns locus : List String) (gti dpi gqi : Nat) (sample : String)
    (v : Variants) (log : List LogEntry) (v' : Variants) (log' : List LogEntry)
    (h : process_sample population site ref alt columns locus gti dpi gqi sample v log
      = .ok (v', log')) :
    (∃ dr da : Int,
      ((dr, da) = (0, 0) ∨ (dr, da) = (2, 0) ∨ (dr, da) = (0, 2) ∨ (dr, da) = (1, 1)) ∧
      ∀ s a p, cellCount v' s a p
        = cellCount v s a p
          + (if s = site ∧ a = ref ∧ p = population then dr else 0)
          + (if s = site ∧ a = alt ∧ p = population then da else 0)) ∧
    (log' = log ∨ (v' = v ∧
      ∃ d, log' = log ++ [LogEntry.lowCoverage population site sample d])) := by
  unfold process_sample at h
  simp only [exceptBind_ok_iff] at h
  obtain ⟨genotype, hgen, h⟩ := h
  obtain ⟨dpS, hdpS, h⟩ := h
  obtain ⟨dp, hdp, h⟩ := h
  split at h
  · simp only [Except.ok.injEq, Prod.mk.injEq] at h
    obtain ⟨hv, hl⟩ := h
    subst hv
    refine ⟨⟨0, 0, Or.inl rfl, fun s a p => by simp⟩, Or.inr ⟨rfl, dpS, hl.symm⟩⟩
  · simp only [exceptBind_ok_iff] at h
    obtain ⟨gqS, hgqS, h⟩ := h
    obtain ⟨gq, hgq, h⟩ := h
    split at h
    · simp only [Except.ok.injEq, Prod.mk.injEq] at h
      obtain ⟨hv, hl⟩ := h
      subst hv
      refine ⟨⟨0, 0, Or.inl rfl, fun s a p => by simp⟩, Or.inr ⟨rfl, dpS, hl.symm⟩⟩
    · simp only [exceptBind_ok_iff] at h
      obtain ⟨gt, hgt, h⟩ := h
      split at h
      · rw [show Except.map (fun v2 => (v2, log)) (incr v site ref population 2)
            = (incr v site ref population 2) >>= (fun v2 => .ok (v2, log)) from by
            cases incr v site ref population 2 <;> rfl] at h
        simp only [exceptBind_ok_iff] at h
        obtain ⟨v2, hincr, heq⟩ := h
        simp only [Except.ok.injEq, Prod.mk.injEq] at heq
        obtain ⟨hv, hl⟩ := heq
        subst hv
        refine ⟨⟨2, 0, Or.inr (Or.inl rfl), fun s a p => by
          rw [incr_cell hincr s a p]; simp⟩, Or.inl hl.symm⟩
      · split at h
        · simp only [exceptBind_ok_iff] at h
          obtain ⟨v1, h1, h⟩ := h
          obtain ⟨v2, h2, heq⟩ := h
          simp only [Except.ok.injEq, Prod.mk.injEq] at heq
          obtain ⟨hv, hl⟩ := heq
          subst hv
          refine ⟨⟨1, 1, Or.inr (Or.inr (Or.inr rfl)), fun s a p => by
            rw [incr_cell h2 s a p, incr_cell h1 s a p]⟩, Or.inl hl.symm⟩
        · split at h
          · rw [show Except.map (fun v2 => (v2, log)) (incr v site alt population 2)
                = (incr v site alt population 2) >>= (fun v2 => .ok (v2, log)) from by
                cases incr v site alt population 2 <;> rfl] at h
            simp only [exceptBind_ok_iff] at h
            obtain ⟨v2, hincr, heq⟩ := h
            simp only [Except.ok.injEq, Prod.mk.injEq] at heq
            obtain ⟨hv, hl⟩ := heq
            subst hv
            refine ⟨⟨0, 2, Or.inr (Or.inr (Or.inl rfl)), fun s a p => by
              rw [incr_cell hincr s a p]; simp⟩, Or.inl hl.symm⟩
          · simp only [Except.ok.injEq, Prod.mk.injEq] at h
            obtain ⟨hv, hl⟩ := h
            subst hv
            refine ⟨⟨0, 0, Or.inl rfl, fun s a p => by simp⟩, Or.inl hl.symm⟩

/-- Claim C5 witness: a heterozygous sample contributes 1/1 to the two
allele cells of the initialised site. -/
theorem process_sample_diploid_witness :
    process_sample "P" ("1", "100") "A" "T" stdCols rowLowQual 0 1 2 "S1" vInit []
      = .ok (vHet, []) ∧
    ((∃ dr da : Int,
      ((dr, da) = (0, 0) ∨ (dr, da) = (2, 0) ∨ (dr, da) = (0, 2) ∨ (dr, da) = (1, 1)) ∧
      ∀ s a p, cellCount vHet s a p
        = cellCount vInit s a p
          + (if s = ("1", "100") ∧ a = "A" ∧ p = "P" then dr else 0)
          + (if s = ("1", "100") ∧ a = "T" ∧ p = "P" then da else 0)) ∧
    (([] : List LogEntry) = [] ∨ (vHet = vInit ∧
      ∃ d, ([] : List LogEntry) = [] ++ [LogEntry.lowCoverage "P" ("1", "100") "S1" d]))) :=
  ⟨by decide, process_sample_diploid "P" ("1", "100") "A" "T" stdCols rowLowQual 0 1 2 "S1"
    vInit [] vHet [] (by decide)⟩

/-- Claim C6 counterexample: a well-formed record with quality `30.0` is not
retained — it passes the quality filter and then the extraction aborts with
the alternate-allele `ValueError` of line 52, so no record with a passing
quality is ever processed to completion. -/
theorem qual30_record_not_retained_cex :
    process_record "P" ["S1"] stdCols row30 [] [] = .error .valueError := by decide

/-- Claim C6 as amended: the thresholds do use strict less-than exclusion —
quality `29.9` is skipped and logged as LowQual while `30.0` and the missing
marker `.` pass the quality filter (full retention of such records is then
prevented by the line 52 crash, see C2/C6 counterexample); at the sample
level depth `4` is skipped and logged as LowCoverage at threshold 5 while a
depth `5` sample (genotype quality at its own boundary 30) is retained and
counted. -/
theorem filter_thresholds_strict :
    qual_skip "29.9" = .ok true ∧
    qual_skip "30.0" = .ok false ∧
    qual_skip "." = .ok false ∧
    process_record "P" ["S1"] stdCols rowLowQual [] []
      = .ok ([], [LogEntry.lowQual "P" ("1", "100") "29.9"]) ∧
    process_sample "P" ("1", "100") "A" "T" stdCols rowDp4 0 1 2 "S1" vInit []
      = .ok (vInit, [LogEntry.lowCoverage "P" ("1", "100") "S1" "4"]) ∧
    process_sample "P" ("1", "100") "A" "T" stdCols rowDp5 0 1 2 "S1" vInit []
      = .ok ([(("1", "100"), [("A", [("P", 2)]), ("T", [])])], []) := by
  refine ⟨by decide, by decide, by decide, by decide, by decide, by decide⟩

/-- Claim C7: when every iteration of the optimisation loop produces a
masked evaluation, `DadiModelOptimizeParams.run` raises the distinguishable
no-valid-parameters error carrying the group, model, scenario and restart
number, and persists nothing (the `.ok` payload is what gets pickled, and it
is produced only when some iteration was non-masked). -/
theorem dadi_all_masked_raises (group model scenario : String) (n : Nat)
    (iters : List OptIter) :
    ((∀ it ∈ iters, it.masked = true) →
      DadiModelOptimizeParams_run group model scenario n iters
        = .error (.noValidParams group model scenario n)) ∧
    (∀ res, DadiModelOptimizeParams_run group model scenario n iters = .ok res →
      ∃ it ∈ iters, it.masked = false) := by
  constructor
  · intro hall
    unfold DadiModelOptimizeParams_run
    rw [opt_loop_all_masked iters [] hall]
    simp
  · intro res hok
    by_contra hno
    push_neg at hno
    have hall : ∀ it ∈ iters, it.masked = true := by
      intro it hit
      cases hmask : it.masked
      · exact absurd hmask (hno it hit)
      · rfl
    unfold DadiModelOptimizeParams_run at hok
    rw [opt_loop_all_masked iters [] hall] at hok
    simp at hok

/-- Claim C7 witness: a one-iteration all-masked trace raises the named
error with the identifying parameters. -/
theorem dadi_all_masked_raises_witness :
    DadiModelOptimizeParams_run "all-pops" "split_mig" "best-fit" 3 [⟨1, 2, [3], true⟩]
      = .error (.noValidParams "all-pops" "split_mig" "best-fit" 3) :=
  (dadi_all_masked_raises "all-pops" "split_mig" "best-fit" 3 [⟨1, 2, [3], true⟩]).1
    (by decide)

/-- Claim C8 counterexample: the `bioinf-luigi.py` `run_cmd` on a subprocess
that exits with status 1 returns the captured stdout instead of surfacing
stderr and failing — it performs no exit-status check at all. -/
theorem bioinf_run_cmd_returns_on_failure_cex :
    run_cmd_bioinf ["samtools"] ⟨1, "out", "err"⟩ = CmdOutcome.returned "out" ∧
    (run_cmd_bioinf ["samtools"] ⟨1, "out", "err"⟩ == CmdOutcome.exited "err") = false := by
  refine ⟨rfl, by decide⟩

/-- Claim C8 as amended: both `run_cmd` helpers pass an explicit argument
vector with `shell=False` and return the subprocess's captured stdout on
success; the `pipeline-luigi-gatk.py` helper prints the captured stderr and
exits instead of returning on any nonzero status, but the `bioinf-luigi.py`
helper returns stdout unconditionally (its stderr is not even captured). -/
theorem run_cmd_exit_handling (cmd : List PyArg) (cmd2 : List String) (proc : ProcResult) :
    run_cmd_gatk cmd proc
      = (if proc.returncode = 0 then CmdOutcome.returned proc.stdout
         else CmdOutcome.exited proc.stderr) ∧
    run_cmd_bioinf cmd2 proc = CmdOutcome.returned proc.stdout ∧
    run_cmd_gatk_shell = false ∧ run_cmd_bioinf_shell = false := by
  refine ⟨?_, rfl, rfl, rfl⟩
  unfold run_cmd_gatk
  rcases eq_or_ne proc.returncode 0 with h | h <;> simp [h]

/-- Claim C9 counterexample: for a population of 2 samples the projection
passed by `DadiSpectrum.run` is `2`, and for 3 samples it is `4` — not the
claimed sample count minus one (`1` and `2`). -/
theorem dadi_projection_cex :
    DadiSpectrum_prj groups0 "g" "P1" "P2" = .ok [2, 4] ∧
    (([2, 4] : List Int) == [2 - 1, 3 - 1]) = false := by
  refine ⟨by decide, by decide⟩

/-- Claim C9 as amended: the projection size for each of the two populations
is twice (sample count minus one) — the population is projected down by one
diploid sample, i.e. two haploid copies, to allow for missing coverage. -/
theorem dadi_projection_doubled (groups : Groups) (group pop1 pop2 : String)
    (g : List (String × List String)) (s1 s2 : List String)
    (h : alLookup groups group = some g) (h1 : alLookup g pop1 = some s1)
    (h2 : alLookup g pop2 = some s2) :
    DadiSpectrum_prj groups group pop1 pop2
      = .ok [2 * ((s1.length : Int) - 1), 2 * ((s2.length : Int) - 1)] := by
  simp [DadiSpectrum_prj, dictGet, h, h1, h2, Bind.bind, Except.bind, dadi_projection,
    Int.mul_comm]

/-- Claim C9 witness: the amended formula evaluated on the two-population
table with 2 and 3 samples. -/
theorem dadi_projection_doubled_witness :
    DadiSpectrum_prj groups0 "g" "P1" "P2"
      = .ok [2 * (((["s1", "s2"] : List String).length : Int) - 1),
             2 * (((["t1", "t2", "t3"] : List String).length : Int) - 1)] :=
  dadi_projection_doubled groups0 "g" "P1" "P2"
    [("P1", ["s1", "s2"]), ("P2", ["t1", "t2", "t3"])] ["s1", "s2"] ["t1", "t2", "t3"]
    (by decide) (by decide) (by decide)

/-- Claim C10: a sample that passes the depth and genotype-quality
thresholds but whose genotype string is none of `0/0`, `0/1`, `1/1` leaves
the variants structure and the log exactly as they were — silently dropped,
with no logged reason. -/
theorem unmatched_genotype_silent (population : String) (site : Site) (ref alt : String)
    (columns locus : List String) (gti dpi gqi : Nat) (sample : String)
    (v : Variants) (log : List LogEntry) (genotype : List String) (dpS gqS gt : String)
    (dp gq : Int)
    (hgen : sample_genotype columns locus sample = .ok genotype)
    (hdpS : pyGet genotype dpi = .ok dpS) (hdp : pyInt dpS = .ok dp) (hdp5 : 5 ≤ dp)
    (hgqS : pyGet genotype gqi = .ok gqS) (hgq : pyInt gqS = .ok gq) (hgq30 : 30 ≤ gq)
    (hgt : pyGet genotype gti = .ok gt)
    (h00 : gt ≠ "0/0") (h01 : gt ≠ "0/1") (h11 : gt ≠ "1/1") :
    process_sample population site ref alt columns locus gti dpi gqi sample v log
      = .ok (v, log) := by
  unfold process_sample
  rw [hgen]
  simp only [exceptBind_pure]
  rw [hdpS]
  simp only [exceptBind_pure]
  rw [hdp]
  simp only [exceptBind_pure]
  rw [if_neg (by omega : ¬ dp < 5)]
  rw [hgqS]
  simp only [exceptBind_pure]
  rw [hgq]
  simp only [exceptBind_pure]
  rw [if_neg (by omega : ¬ gq < 30)]
  rw [hgt]
  simp only [exceptBind_pure]
  rw [if_neg h00, if_neg h01, if_neg h11]

/-- Claim C10 witness: an uncalled `./.` genotype with good depth and
quality changes neither counters nor log. -/
theorem unmatched_genotype_silent_witness :
    sample_genotype stdCols rowDotDot "S1" = .ok ["./.", "9", "35"] ∧
    process_sample "P" ("1", "100") "A" "T" stdCols rowDotDot 0 1 2 "S1" vInit []
      = .ok (vInit, []) :=
  ⟨by decide, unmatched_genotype_silent "P" ("1", "100") "A" "T" stdCols rowDotDot 0 1 2 "S1"
    vInit [] ["./.", "9", "35"] "9" "35" "./." 9 35 (by decide) (by decide) (by decide)
    (by decide) (by decide) (by decide) (by decide) (by decide) (by decide) (by decide)
    (by decide)⟩
